import Mathlib

/-!
# Verification of the adaptive PMTUD engine

Shallow embedding of the MTU conversion / policy-resolution layer
(`net/tstun`) and the per-OS fragmentation-control backends
(`wgengine/magicsock/dontfrag_*.go`) of this repository, together with
proofs of the spec's testable properties.

The `net/tstun/mtu.go` implementation itself is not part of the sampled
sources (only its test `mtu_test.go` is), so the conversion and resolver
definitions below are modelled from the spec, constrained by the concrete
table in `TestMTUConversion` and the branch structure in
`TestDefaultTunMTU`.  The magicsock backends are translated directly from
`dontfrag_linux.go` and the darwin/unsupported variants in the sources.
-/

namespace Tstun

/-- Modelled from the spec: the fixed encapsulation-header constant
`wgHeaderLen` of `net/tstun/mtu.go` (not in the sampled sources).  Its
value is forced to 80 by the conversion table of `TestMTUConversion`
(`1360 → 1280`, `1500 → 1420`, `9000 → 8920`). -/
def wgHeaderLen : Nat := 80

/-- Modelled from the spec: `WireToTunMTU(w)` returns `w - overhead`
clamped to a minimum of 0 (`Nat` subtraction truncates at 0, which is
exactly that clamp); if `w ≤ overhead` the result is 0. -/
def WireToTunMTU (w : Nat) : Nat := w - wgHeaderLen

/-- Modelled from the spec: the hard ceiling `maxTunMTU` on any resolved
tunnel MTU.  The exact constant is not in the sampled sources; the value
65535 (the largest IP packet size, spec §3 gives WireMTU range 0..65535)
is used. -/
def maxTunMTU : Nat := 65535

/-- Modelled from the spec: the conservative tunnel MTU constant
`safeTunMTU` returned when PMTUD is disabled and no override is set.  The
exact constant is not in the sampled sources; 1280 (the IPv6 minimum MTU,
matching the `1360 → 1280` row of the conversion table) is used. -/
def safeTunMTU : Nat := 1280

/-- Modelled from the spec: the wire-level equivalent of the conservative
constant, i.e. `safeTunMTU` plus the encapsulation overhead. -/
def safeWireMTU : Nat := safeTunMTU + wgHeaderLen

/-- Modelled from the spec: `MaxProbedWireMTU`, the upper-bound constant
representing the largest wire MTU the design will ever probe for.  The
exact constant is not in the sampled sources; 9000 (the largest entry of
the conversion table, a jumbo frame) is used. -/
def MaxProbedWireMTU : Nat := 9000

/-- Modelled from the spec: clamp an operator override to the range
`[0, maxTunMTU]`. -/
def clampTunMTU (v : Int) : Nat := (min (max v 0) (maxTunMTU : Int)).toNat

/-- Modelled from the spec: the prober lifecycle states of §4.3. -/
inductive LifecycleState where
  | Idle
  | ProbingUp
  | Stable
  | Degraded
deriving DecidableEq, Repr

/-- Modelled from the spec: the per-path probe state fields the resolver
consumes (§3 `PathProbeState`, restricted to the fields §4.4 reads). -/
structure PathProbeState where
  verifiedWireMTU : Nat
  lifecycleState : LifecycleState
deriving DecidableEq, Repr

/-- Modelled from the spec: the maximum verified wire MTU across all
currently tracked paths. -/
def bestVerifiedWireMTU (paths : List PathProbeState) : Nat :=
  paths.foldr (fun p acc => max p.verifiedWireMTU acc) 0

/-- Modelled from the spec: a path qualifies for the probed branch of the
resolver when it is `Stable` or its `verifiedWireMTU` is better than the
conservative constant. -/
def pathQualifies (p : PathProbeState) : Bool :=
  decide (p.lifecycleState = LifecycleState.Stable) ||
    decide (safeWireMTU < p.verifiedWireMTU)

/-- Modelled from the spec: `ResolveTunMTU(override, pmtudEnabled,
bestVerifiedWireMTU)` of §4.4, with the prober state made explicit as the
list of currently tracked paths.  Precedence: an explicit override is
returned clamped to `[0, maxTunMTU]`; else, with PMTUD enabled and at
least one qualifying path, `WireToTunMTU` of the best verified wire MTU;
else the conservative constant. -/
def ResolveTunMTU (override : Option Int) (pmtudEnabled : Bool)
    (paths : List PathProbeState) : Nat :=
  match override with
  | some v => clampTunMTU v
  | none =>
    if pmtudEnabled && paths.any pathQualifies then
      WireToTunMTU (bestVerifiedWireMTU paths)
    else
      safeTunMTU

/-- Modelled from the spec: `DefaultTunMTU` of `net/tstun/mtu.go` (not in
the sampled sources), as exercised by `TestDefaultTunMTU`: the
`TS_DEBUG_MTU` override, when set, is returned clamped and takes
precedence; else with PMTUD enabled the result is
`WireToTunMTU MaxProbedWireMTU`; else `safeTunMTU`. -/
def DefaultTunMTU (tsDebugMTU : Option Int) (pmtudEnabled : Bool) : Nat :=
  match tsDebugMTU with
  | some m => clampTunMTU m
  | none => if pmtudEnabled then WireToTunMTU MaxProbedWireMTU else safeTunMTU

end Tstun

/-- C1: for every non-negative wire MTU `w`, `WireToTunMTU w` equals
`max 0 (w - wgHeaderLen)` (computed in `Int`), is never negative, and the
edge cases and the concrete table `{1360→1280, 1500→1420, 9000→8920}`
hold exactly. -/
theorem C1_wire_to_tun_conversion :
    (∀ w : Nat, (Tstun.WireToTunMTU w : Int) =
        max 0 ((w : Int) - (Tstun.wgHeaderLen : Int))) ∧
    Tstun.WireToTunMTU 0 = 0 ∧
    Tstun.WireToTunMTU Tstun.wgHeaderLen = 0 ∧
    Tstun.WireToTunMTU (Tstun.wgHeaderLen + 1) = 1 ∧
    Tstun.WireToTunMTU 1360 = 1280 ∧
    Tstun.WireToTunMTU 1500 = 1420 ∧
    Tstun.WireToTunMTU 9000 = 8920 := by
  refine ⟨fun w => ?_, by decide, by decide, by decide, by decide, by decide, by decide⟩
  simp only [Tstun.WireToTunMTU, Tstun.wgHeaderLen]
  omega

/-- C2: for every explicit override value `v` (any integer), every PMTUD
flag and every prober state, the resolver returns `v` clamped to
`[0, maxTunMTU]` — never a probed value, and never the unclamped `v` when
`v` is out of range. -/
theorem C2_override_precedence (v : Int) (pmtud : Bool)
    (paths : List Tstun.PathProbeState) :
    Tstun.ResolveTunMTU (some v) pmtud paths = Tstun.clampTunMTU v ∧
    Tstun.DefaultTunMTU (some v) pmtud = Tstun.clampTunMTU v ∧
    Tstun.clampTunMTU v ≤ Tstun.maxTunMTU ∧
    ((Tstun.maxTunMTU : Int) < v → (Tstun.clampTunMTU v : Int) ≠ v) ∧
    (v < 0 → (Tstun.clampTunMTU v : Int) ≠ v) := by
  refine ⟨rfl, rfl, ?_, ?_, ?_⟩ <;>
    simp only [Tstun.clampTunMTU, Tstun.maxTunMTU] <;> omega

/-- Witness for C2 at the concrete out-of-range overrides 65536 and -1,
with PMTUD enabled and a non-trivial prober state. -/
theorem C2_override_precedence_witness :
    Tstun.ResolveTunMTU (some 65536) true
        [⟨9000, Tstun.LifecycleState.Stable⟩] = Tstun.clampTunMTU 65536 ∧
    (Tstun.clampTunMTU 65536 : Int) ≠ 65536 ∧
    (Tstun.clampTunMTU (-1) : Int) ≠ -1 :=
  ⟨(C2_override_precedence 65536 true [⟨9000, Tstun.LifecycleState.Stable⟩]).1,
   (C2_override_precedence 65536 true [⟨9000, Tstun.LifecycleState.Stable⟩]).2.2.2.1
     (by decide),
   (C2_override_precedence (-1) true []).2.2.2.2 (by decide)⟩

/-- C3: with PMTUD disabled and no override, the resolver returns the
conservative constant `safeTunMTU` regardless of the prober state. -/
theorem C3_disabled_returns_safe (paths : List Tstun.PathProbeState) :
    Tstun.ResolveTunMTU none false paths = Tstun.safeTunMTU ∧
    Tstun.DefaultTunMTU none false = Tstun.safeTunMTU :=
  ⟨rfl, rfl⟩

/-- C4: with no override and PMTUD enabled, when at least one path is
`Stable` or has a `verifiedWireMTU` better than the conservative wire
constant, the resolver returns `WireToTunMTU` of the maximum verified
wire MTU across tracked paths; and `DefaultTunMTU` in that configuration
evaluates to `WireToTunMTU MaxProbedWireMTU`. -/
theorem C4_probed_branch (paths : List Tstun.PathProbeState)
    (h : ∃ p ∈ paths, p.lifecycleState = Tstun.LifecycleState.Stable ∨
        Tstun.safeWireMTU < p.verifiedWireMTU) :
    Tstun.ResolveTunMTU none true paths =
      Tstun.WireToTunMTU (Tstun.bestVerifiedWireMTU paths) ∧
    Tstun.DefaultTunMTU none true =
      Tstun.WireToTunMTU Tstun.MaxProbedWireMTU := by
  refine ⟨?_, rfl⟩
  have hany : paths.any Tstun.pathQualifies = true := by
    rcases h with ⟨p, hp, hq⟩
    refine List.any_eq_true.mpr ⟨p, hp, ?_⟩
    simp only [Tstun.pathQualifies, Bool.or_eq_true, decide_eq_true_eq]
    exact hq
  simp only [Tstun.ResolveTunMTU, hany, Bool.and_true, if_true]

/-- Witness for C4 at a single Stable path with verified wire MTU 1500. -/
theorem C4_probed_branch_witness :
    Tstun.ResolveTunMTU none true [⟨1500, Tstun.LifecycleState.Stable⟩] =
      Tstun.WireToTunMTU
        (Tstun.bestVerifiedWireMTU [⟨1500, Tstun.LifecycleState.Stable⟩]) ∧
    Tstun.DefaultTunMTU none true =
      Tstun.WireToTunMTU Tstun.MaxProbedWireMTU :=
  C4_probed_branch [⟨1500, Tstun.LifecycleState.Stable⟩]
    ⟨⟨1500, Tstun.LifecycleState.Stable⟩, by simp, Or.inl rfl⟩

/-- All paths' verified wire MTUs fit the `WireMTU` range 0..65535, so
their maximum does too. -/
theorem bestVerifiedWireMTU_le (paths : List Tstun.PathProbeState)
    (h : ∀ p ∈ paths, p.verifiedWireMTU ≤ 65535) :
    Tstun.bestVerifiedWireMTU paths ≤ 65535 := by
  induction paths with
  | nil => simp [Tstun.bestVerifiedWireMTU]
  | cons p ps ih =>
    simp only [Tstun.bestVerifiedWireMTU, List.foldr_cons] at ih ⊢
    have h1 := h p (by simp)
    have h2 : ∀ q ∈ ps, q.verifiedWireMTU ≤ 65535 := fun q hq => h q (by simp [hq])
    exact max_le h1 (ih h2)

/-- C8: for every combination of override, PMTUD flag and prober state
(with each path's verified wire MTU in the `WireMTU` range 0..65535), the
resolver's result lies in `[0, maxTunMTU]`: it never exceeds the hard
ceiling and is never negative. -/
theorem C8_result_in_range (override : Option Int) (pmtud : Bool)
    (paths : List Tstun.PathProbeState)
    (h : ∀ p ∈ paths, p.verifiedWireMTU ≤ 65535) :
    Tstun.ResolveTunMTU override pmtud paths ≤ Tstun.maxTunMTU ∧
    (0 : Int) ≤ (Tstun.ResolveTunMTU override pmtud paths : Int) := by
  refine ⟨?_, Int.natCast_nonneg _⟩
  match override with
  | some v =>
    simp only [Tstun.ResolveTunMTU, Tstun.clampTunMTU, Tstun.maxTunMTU]
    omega
  | none =>
    simp only [Tstun.ResolveTunMTU]
    by_cases hc : (pmtud && paths.any Tstun.pathQualifies) = true
    · simp only [hc, if_true]
      have := bestVerifiedWireMTU_le paths h
      simp only [Tstun.WireToTunMTU, Tstun.wgHeaderLen, Tstun.maxTunMTU]
      omega
    · simp only [hc, if_false]
      simp [Tstun.safeTunMTU, Tstun.maxTunMTU]

/-- Witness for C8 at a probed configuration with a maximal-range path. -/
theorem C8_result_in_range_witness :
    Tstun.ResolveTunMTU none true [⟨65535, Tstun.LifecycleState.Stable⟩] ≤
      Tstun.maxTunMTU ∧
    (0 : Int) ≤
      (Tstun.ResolveTunMTU none true [⟨65535, Tstun.LifecycleState.Stable⟩] : Int) :=
  C8_result_in_range none true [⟨65535, Tstun.LifecycleState.Stable⟩] (by decide)

namespace Magicsock

/-- One OS-level socket-option write: protocol level, option name and
value, as passed to `syscall.SetsockoptInt`. -/
structure SockOpt where
  level : Nat
  opt : Nat
  value : Nat
deriving DecidableEq, Repr

/-- The `nettype.PacketConn` argument of `setDontFragment`, as far as the
backends inspect it: either a genuine `*net.UDPConn` (whose `RawConn`
control callback runs only while the handle is open — on a closed handle
`Control` fails and its error is discarded by the source, so the callback
never runs), or any other implementation (a test double), for which the
type assertion `pconn.(*net.UDPConn)` fails. -/
inductive PacketConn where
  | udpConn (closed : Bool)
  | testDouble
deriving DecidableEq, Repr

/-- Linux ABI: `IPPROTO_IP = 0`. -/
def IPPROTO_IP : Nat := 0

/-- Linux and Darwin ABI: `IPPROTO_IPV6 = 41`. -/
def IPPROTO_IPV6 : Nat := 41

/-- Linux ABI: `syscall.IP_MTU_DISCOVER = 10`, the IPv4 path-MTU-discover
socket option (an `IPPROTO_IP`-level option name). -/
def IP_MTU_DISCOVER : Nat := 10

/-- Linux ABI: `IPV6_MTU_DISCOVER = 23`, the IPv6 path-MTU-discover
socket option (the `IPPROTO_IPV6`-level option name). -/
def IPV6_MTU_DISCOVER : Nat := 23

/-- Linux ABI: `syscall.IP_PMTUDISC_DONT = 0` (permit fragmentation). -/
def IP_PMTUDISC_DONT : Nat := 0

/-- Linux ABI: `syscall.IP_PMTUDISC_DO = 2` (set don't-fragment). -/
def IP_PMTUDISC_DO : Nat := 2

/-- Darwin ABI: `unix.IP_DONTFRAG = 28`. -/
def darwin_IP_DONTFRAG : Nat := 28

/-- Darwin ABI: `unix.IPV6_DONTFRAG = 62`. -/
def darwin_IPV6_DONTFRAG : Nat := 62

/-- `setDontFragment` of `dontfrag_linux.go`.  `os` is the kernel's
response to a `SetsockoptInt` call (the underlying OS error, if any).
The result is the returned `error` together with the list of socket
option writes performed on the connection's file descriptor.  The source
applies the type assertion (returning `nil` for non-`*net.UDPConn`),
obtains the raw connection, and inside `rc.Control` issues the `udp4` or
`udp6` write (the two `if` branches are mutually exclusive since
`network` is a single string); on a closed handle `Control` fails, its
error is discarded, and no write happens. -/
def setDontFragmentLinux (os : SockOpt → Option String) (pconn : PacketConn)
    (network : String) (enable : Bool) : Option String × List SockOpt :=
  let value := if enable then IP_PMTUDISC_DO else IP_PMTUDISC_DONT
  match pconn with
  | PacketConn.testDouble => (none, [])
  | PacketConn.udpConn closed =>
    if closed then
      (none, [])
    else if network = "udp4" then
      let w : SockOpt := ⟨IPPROTO_IP, IP_MTU_DISCOVER, value⟩
      (os w, [w])
    else if network = "udp6" then
      let w : SockOpt := ⟨IPPROTO_IPV6, IP_MTU_DISCOVER, value⟩
      (os w, [w])
    else
      (none, [])

/-- `setDontFragment` of the darwin build variant (`src/unnamed/part_000`,
build tag `darwin && !ios`): same structure as the Linux one, with value
0/1 and the `IP_DONTFRAG` / `IPV6_DONTFRAG` option names. -/
def setDontFragmentDarwin (os : SockOpt → Option String) (pconn : PacketConn)
    (network : String) (enable : Bool) : Option String × List SockOpt :=
  let value := if enable then 1 else 0
  match pconn with
  | PacketConn.testDouble => (none, [])
  | PacketConn.udpConn closed =>
    if closed then
      (none, [])
    else if network = "udp4" then
      let w : SockOpt := ⟨IPPROTO_IP, darwin_IP_DONTFRAG, value⟩
      (os w, [w])
    else if network = "udp6" then
      let w : SockOpt := ⟨IPPROTO_IPV6, darwin_IPV6_DONTFRAG, value⟩
      (os w, [w])
    else
      (none, [])

/-- The error message of the unsupported build variant
(`src/unnamed/part_001`, build tag `(!linux && !darwin) || android || ios`). -/
def unsupportedErr : String :=
  "setting don't fragment bit not supported on this OS; peer path MTU discovery disabled"

/-- `setDontFragment` of the unsupported build variant: returns the
distinguished error unconditionally and performs no write. -/
def setDontFragmentUnsupported (pconn : PacketConn) (network : String)
    (value : Bool) : Option String × List SockOpt :=
  (some unsupportedErr, [])

/-- `ShouldPMTUD` of the unsupported build variant: always `false`. -/
def shouldPMTUDUnsupported : Bool := false

/-- Apply a list of socket-option writes to a socket state (a map from
protocol level and option name to current value), in order. -/
def applyWrites (s : Nat → Nat → Nat) (ws : List SockOpt) : Nat → Nat → Nat :=
  ws.foldl (fun st w => fun l o => if l = w.level ∧ o = w.opt then w.value else st l o) s

end Magicsock

/-- C5: the unsupported backend returns the distinguished "unsupported"
error for every connection, network string and flag; it never returns
`nil` and performs no write. -/
theorem C5_unsupported_always_errors (pconn : Magicsock.PacketConn)
    (network : String) (enable : Bool) :
    (Magicsock.setDontFragmentUnsupported pconn network enable).1 =
      some Magicsock.unsupportedErr ∧
    (Magicsock.setDontFragmentUnsupported pconn network enable).1 ≠ none ∧
    (Magicsock.setDontFragmentUnsupported pconn network enable).2 = [] :=
  ⟨rfl, by simp [Magicsock.setDontFragmentUnsupported], rfl⟩

/-- C6 counterexample: on the unsupported platform backend,
`setDontFragment` applied to a test double (a connection not backed by an
OS-level transport) returns a non-nil error, refuting the claim that
every platform backend returns success for such connections. -/
theorem C6_counterexample :
    (Magicsock.setDontFragmentUnsupported Magicsock.PacketConn.testDouble
        "udp4" true).1 ≠ none := by
  simp [Magicsock.setDontFragmentUnsupported]

/-- C6 (amended): on the capable platform backends (Linux and Darwin),
for every connection that is not backed by a genuine OS-level transport —
a test double failing the `*net.UDPConn` assertion, or an already-closed
handle — `setDontFragment` returns `nil` and performs no socket write;
the unsupported backend instead returns its error for every connection. -/
theorem C6_no_transport_succeeds (os : Magicsock.SockOpt → Option String)
    (network : String) (enable : Bool) (conn : Magicsock.PacketConn)
    (h : conn = Magicsock.PacketConn.testDouble ∨
        conn = Magicsock.PacketConn.udpConn true) :
    Magicsock.setDontFragmentLinux os conn network enable = (none, []) ∧
    Magicsock.setDontFragmentDarwin os conn network enable = (none, []) := by
  rcases h with h | h <;> subst h <;>
    exact ⟨rfl, rfl⟩

/-- Witness for C6 (amended) at a test double on network "udp4". -/
theorem C6_no_transport_succeeds_witness :
    Magicsock.setDontFragmentLinux (fun _ => none)
        Magicsock.PacketConn.testDouble "udp4" true = (none, []) ∧
    Magicsock.setDontFragmentDarwin (fun _ => none)
        Magicsock.PacketConn.testDouble "udp4" true = (none, []) :=
  C6_no_transport_succeeds (fun _ => none) "udp4" true
    Magicsock.PacketConn.testDouble (Or.inl rfl)

/-- C7: on Linux, for a genuine open UDP connection with network "udp6"
and enable set, the source writes the option name `IP_MTU_DISCOVER`
(the IPv4 constant, value 10) at level `IPPROTO_IPV6` — but the IPv6
path-MTU-discover option on Linux is `IPV6_MTU_DISCOVER` (value 23), a
different option name: the IPv6 don't-fragment state is never set. -/
theorem C7_linux_udp6_wrong_option (os : Magicsock.SockOpt → Option String)
    (enable : Bool) :
    (Magicsock.setDontFragmentLinux os (Magicsock.PacketConn.udpConn false)
        "udp6" enable).2 =
      [⟨Magicsock.IPPROTO_IPV6, Magicsock.IP_MTU_DISCOVER,
        if enable then Magicsock.IP_PMTUDISC_DO else Magicsock.IP_PMTUDISC_DONT⟩] ∧
    Magicsock.IP_MTU_DISCOVER ≠ Magicsock.IPV6_MTU_DISCOVER ∧
    ∀ w ∈ (Magicsock.setDontFragmentLinux os
        (Magicsock.PacketConn.udpConn false) "udp6" enable).2,
      w.opt ≠ Magicsock.IPV6_MTU_DISCOVER := by
  refine ⟨rfl, by decide, ?_⟩
  intro w hw
  have hweq : w = ⟨Magicsock.IPPROTO_IPV6, Magicsock.IP_MTU_DISCOVER,
      if enable then Magicsock.IP_PMTUDISC_DO else Magicsock.IP_PMTUDISC_DONT⟩ := by
    simpa [Magicsock.setDontFragmentLinux] using hw
  subst hweq
  by_cases he : enable <;> simp [he] <;> decide

/-- C9: on both capable backends, a network string other than "udp4" and
"udp6" produces a `nil` error and no socket write at all, for every
genuine open UDP connection and flag. -/
theorem C9_other_network_silent_noop (os : Magicsock.SockOpt → Option String)
    (enable : Bool) (network : String)
    (h4 : network ≠ "udp4") (h6 : network ≠ "udp6") :
    Magicsock.setDontFragmentLinux os (Magicsock.PacketConn.udpConn false)
        network enable = (none, []) ∧
    Magicsock.setDontFragmentDarwin os (Magicsock.PacketConn.udpConn false)
        network enable = (none, []) := by
  constructor <;>
    simp [Magicsock.setDontFragmentLinux, Magicsock.setDontFragmentDarwin, h4, h6]

/-- Witness for C9 at the plain network string "udp". -/
theorem C9_other_network_silent_noop_witness :
    Magicsock.setDontFragmentLinux (fun _ => none)
        (Magicsock.PacketConn.udpConn false) "udp" true = (none, []) ∧
    Magicsock.setDontFragmentDarwin (fun _ => none)
        (Magicsock.PacketConn.udpConn false) "udp" true = (none, []) :=
  C9_other_network_silent_noop (fun _ => none) true "udp"
    (by decide) (by decide)

/-- C10: on both capable backends, `enable = false` is an active write of
the fragmentation-permitted value (`IP_PMTUDISC_DONT` on Linux, 0 on
Darwin) for both address families, and for every initial socket state,
running `enable = true` then `enable = false` leaves the option at the
fragmentation-permitted value. -/
theorem C10_disable_is_active_write (os : Magicsock.SockOpt → Option String)
    (s : Nat → Nat → Nat) :
    (Magicsock.setDontFragmentLinux os (Magicsock.PacketConn.udpConn false)
        "udp4" false).2 =
      [⟨Magicsock.IPPROTO_IP, Magicsock.IP_MTU_DISCOVER,
        Magicsock.IP_PMTUDISC_DONT⟩] ∧
    (Magicsock.setDontFragmentLinux os (Magicsock.PacketConn.udpConn false)
        "udp6" false).2 =
      [⟨Magicsock.IPPROTO_IPV6, Magicsock.IP_MTU_DISCOVER,
        Magicsock.IP_PMTUDISC_DONT⟩] ∧
    (Magicsock.setDontFragmentDarwin os (Magicsock.PacketConn.udpConn false)
        "udp4" false).2 =
      [⟨Magicsock.IPPROTO_IP, Magicsock.darwin_IP_DONTFRAG, 0⟩] ∧
    (Magicsock.setDontFragmentDarwin os (Magicsock.PacketConn.udpConn false)
        "udp6" false).2 =
      [⟨Magicsock.IPPROTO_IPV6, Magicsock.darwin_IPV6_DONTFRAG, 0⟩] ∧
    Magicsock.applyWrites
        (Magicsock.applyWrites s
          (Magicsock.setDontFragmentLinux os
            (Magicsock.PacketConn.udpConn false) "udp4" true).2)
        (Magicsock.setDontFragmentLinux os
          (Magicsock.PacketConn.udpConn false) "udp4" false).2
        Magicsock.IPPROTO_IP Magicsock.IP_MTU_DISCOVER =
      Magicsock.IP_PMTUDISC_DONT ∧
    Magicsock.applyWrites
        (Magicsock.applyWrites s
          (Magicsock.setDontFragmentDarwin os
            (Magicsock.PacketConn.udpConn false) "udp4" true).2)
        (Magicsock.setDontFragmentDarwin os
          (Magicsock.PacketConn.udpConn false) "udp4" false).2
        Magicsock.IPPROTO_IP Magicsock.darwin_IP_DONTFRAG = 0 := by
  refine ⟨rfl, rfl, rfl, rfl, ?_, ?_⟩ <;>
    simp [Magicsock.applyWrites, Magicsock.setDontFragmentLinux,
      Magicsock.setDontFragmentDarwin]
